import Mathlib

/-!
Shallow embedding of the `WebTeleprompter` React component
(mariusmutu/web-teleprompter, `src/components/WebTeleprompter.js`,
main revision; the revisions in `unnamed/part_000`..`part_003` differ
only in the points noted below).

The component is a single state machine driven by browser events.  We
embed its state variables (`useState` hooks), its refs (`chunksRef`,
`scrollContainerRef`'s `scrollTop`, the scroll interval), and the
observable world (live media streams, produced download artifacts) in
one record `Sys`, and each handler / effect as a function `Sys → Sys`.
Asynchronous platform outcomes (`getUserMedia` resolution, the
`initializeVideoElement` promise) are passed in as explicit `Except`
parameters, so a single run of a handler is a pure function of the
state and of the environment's answers.
-/

/-- Permission status values stored in the `permissionStatus` state
variable: 'checking', 'requesting', 'prompt', 'granted', 'denied',
'error'. -/
inductive PermStatus where
  | checking
  | requesting
  | prompt
  | granted
  | denied
  | error
deriving DecidableEq

/-- Result of `navigator.permissions.query({ name: 'camera' })`. -/
inductive PermQ where
  | granted
  | prompt
  | denied
deriving DecidableEq

/-- The `facingMode` constraint: 'user' or 'environment'. -/
inductive Facing where
  | user
  | environment
deriving DecidableEq

/-- Embeds `setFacingMode(prev => prev === 'user' ? 'environment' : 'user')`. -/
def flipFacing : Facing → Facing
  | Facing.user => Facing.environment
  | Facing.environment => Facing.user

/-- A downloadable file produced by the `onstop` handler: the anchor
element's `download` name and the bytes of the assembled Blob. -/
structure Artifact where
  filename : String
  content : List Nat
deriving DecidableEq

/-- The component state: every `useState` variable of the main
revision, the refs (`chunksRef`, the scroll container's `scrollTop`,
whether the `setInterval` timer is live), and the observable world
(ids of media streams having at least one unstopped track, the id
counter for fresh streams and recorders, the downloads triggered so
far, and whether the component is still mounted). -/
structure Sys where
  hasPermission : Option Bool
  error : Option String
  isRecording : Bool
  autoScroll : Bool
  scrollSpeed : ℚ
  text : String
  mediaRecorder : Option Nat
  facingMode : Facing
  permissionStatus : PermStatus
  stream : Option Nat
  isVideoElementReady : Bool
  chunks : List (List Nat)
  scrollTop : ℚ
  timerActive : Bool
  liveStreams : List Nat
  nextStreamId : Nat
  nextRecId : Nat
  artifacts : List Artifact
  mounted : Bool
deriving DecidableEq

/-- Initial state: the `useState` initial values of the main revision. -/
def initState : Sys where
  hasPermission := none
  error := none
  isRecording := false
  autoScroll := false
  scrollSpeed := 1
  text := "Welcome to the web teleprompter! Edit this text to add your script..."
  mediaRecorder := none
  facingMode := Facing.user
  permissionStatus := PermStatus.checking
  stream := none
  isVideoElementReady := false
  chunks := []
  scrollTop := 0
  timerActive := false
  liveStreams := []
  nextStreamId := 0
  nextRecId := 0
  artifacts := []
  mounted := true

/-- State after the mount effect (`setIsVideoElementReady(true)` once
`videoRef.current` exists). -/
def mountedInit : Sys :=
  { initState with isVideoElementReady := true }

/-- Embeds `stream.getTracks().forEach(track => track.stop())` applied to the
currently held stream, if any: every track of that stream becomes
stopped, so the stream is no longer live. -/
def stopExistingStream (s : Sys) : Sys :=
  { s with liveStreams :=
      match s.stream with
      | some old => s.liveStreams.filter (fun j => decide (j ≠ old))
      | none => s.liveStreams }

/-- The state of `startCamera` at the moment the `getUserMedia` request
is issued: `setPermissionStatus('requesting')` has run and any existing
held stream has had all its tracks stopped. -/
def requestPhase (s : Sys) : Sys :=
  stopExistingStream { s with permissionStatus := PermStatus.requesting }

/-- Embeds `startCamera` of the main revision.  `gum` is the environment's
resolution of `navigator.mediaDevices.getUserMedia(constraints)`
(`Except.ok` with a fresh stream, or rejection with an error message);
`initRes` is the resolution of awaiting `initializeVideoElement` on the
new stream (`Except.ok` when it resolves `true`, rejection with the
play/video error message otherwise).  On success the `[stream]` cleanup
effect also re-stops the previously held stream when `setStream`
replaces it. -/
def startCamera (gum initRes : Except String Unit) (s : Sys) : Sys :=
  if s.isVideoElementReady = false then
    { s with error := some "Video element not initialized" }
  else
    match gum with
    | Except.error msg =>
        let s1 := requestPhase s
        { s1 with error := some msg
                , hasPermission := some false
                , permissionStatus := PermStatus.denied }
    | Except.ok _ =>
        let s1 := requestPhase s
        let nid := s1.nextStreamId
        let s2 := { s1 with liveStreams := nid :: s1.liveStreams
                          , nextStreamId := nid + 1 }
        match initRes with
        | Except.ok _ =>
            let s3 := stopExistingStream s2
            { s3 with stream := some nid
                    , hasPermission := some true
                    , permissionStatus := PermStatus.granted
                    , error := none }
        | Except.error msg =>
            { s2 with error := some msg
                    , hasPermission := some false
                    , permissionStatus := PermStatus.denied }

/-- The `checkPermissions` flow of the mount/`startCamera` effect:
browser-support check, early return while the video element is not
ready, then branching on `navigator.permissions.query` (`q = none`
models the query itself throwing, which falls back to calling
`startCamera` directly). -/
def checkPermissions (supported : Bool) (q : Option PermQ)
    (gum initRes : Except String Unit) (s : Sys) : Sys :=
  if supported = false then
    { s with error := some "Your browser does not support camera access"
           , hasPermission := some false
           , permissionStatus := PermStatus.error }
  else if s.isVideoElementReady = false then s
  else
    match q with
    | some PermQ.granted => startCamera gum initRes s
    | some PermQ.prompt =>
        { s with permissionStatus := PermStatus.prompt
               , hasPermission := some false }
    | some PermQ.denied =>
        { s with permissionStatus := PermStatus.denied
               , hasPermission := some false }
    | none => startCamera gum initRes s

/-- Which of the four render branches the component returns:
`permissionStatus` checking/requesting → loading screen; `error` set →
error screen; falsy `hasPermission` → permission-request screen;
otherwise the main app view (video, scroll container, controls). -/
inductive View where
  | loading
  | errorScreen
  | permissionRequest
  | main
deriving DecidableEq

def view (s : Sys) : View :=
  if s.permissionStatus = PermStatus.checking ∨
      s.permissionStatus = PermStatus.requesting then View.loading
  else if s.error.isSome then View.errorScreen
  else if s.hasPermission ≠ some true then View.permissionRequest
  else View.main

def isMainView : View → Bool
  | View.main => true
  | _ => false

/-- The ref `scrollContainerRef.current` is non-null exactly while the
component is mounted and rendering the main app view, since the
`<div ref={scrollContainerRef}>` appears only in that branch. -/
def containerRendered (s : Sys) : Bool :=
  s.mounted && isMainView (view s)

/-- One firing of the 50ms interval callback of the auto-scroll
effect: `if (scrollContainerRef.current) scrollContainerRef.current
.scrollTop += scrollSpeed`.  Fires only while the interval is live. -/
def tick (s : Sys) : Sys :=
  if s.timerActive then
    if containerRendered s then
      { s with scrollTop := s.scrollTop + s.scrollSpeed }
    else s
  else s

/-- Re-synchronisation of the auto-scroll effect after `autoScroll` or
`scrollSpeed` changes: the cleanup clears the old interval and a new
one is installed exactly when `autoScroll` is true. -/
def scrollEffectSync (s : Sys) : Sys :=
  { s with timerActive := s.autoScroll }

/-- The anchor `download` name assigned in `newMediaRecorder.onstop`
of the main revision. -/
def recordingFilename : String := "teleprompter-recording.webm"

/-- The anchor `download` name of the `unnamed/part_003` revision:
a template literal interpolating `new Date().toISOString()`. -/
def part003RecordingFilename (ts : String) : String :=
  "teleprompter-recording-" ++ ts ++ ".webm"

/-- Embeds `toggleRecording` of the main revision.  Stop branch: the recorder
`onstop` handler assembles `chunksRef.current` into one Blob and
triggers a single download named `recordingFilename`.  Start branch
(requires a held stream): reset `chunksRef`, construct a fresh
`MediaRecorder`, start it.  No stream and not recording: nothing. -/
def toggleRecording (s : Sys) : Sys :=
  if s.isRecording && s.mediaRecorder.isSome then
    { s with artifacts :=
               s.artifacts ++ [⟨recordingFilename, s.chunks.flatten⟩]
           , isRecording := false }
  else if s.stream.isSome then
    { s with chunks := []
           , mediaRecorder := some s.nextRecId
           , nextRecId := s.nextRecId + 1
           , isRecording := true }
  else s

/-- One `ondataavailable` event of the active recorder:
`if (e.data.size > 0) chunksRef.current.push(e.data)`. -/
def dataAvailable (c : List Nat) (s : Sys) : Sys :=
  if s.isRecording && s.mediaRecorder.isSome then
    if 0 < c.length then { s with chunks := s.chunks ++ [c] } else s
  else s

/-- Unmount: the cleanup of the stream effect stops every track of the
held stream and the cleanup of the auto-scroll effect clears the
interval. -/
def unmount (s : Sys) : Sys :=
  { stopExistingStream s with timerActive := false, mounted := false }

/-- The declared bounds of the speed `<input type="range" min="0.5"
max="5" step="0.5">`. -/
def speedMin : ℚ := 1 / 2

def speedMax : ℚ := 5

def speedStep : ℚ := 1 / 2

def clampQ (lo hi v : ℚ) : ℚ := max lo (min hi v)

/-- Value-sanitisation of the range control per its declared
attributes: the browser clamps the dragged value into
`[min, max]` and snaps it to the nearest multiple of `step` from
`min`; the `onChange` handler then stores `Number(e.target.value)`
verbatim. -/
def rangeSanitize (v : ℚ) : ℚ :=
  speedMin +
    speedStep * ((round ((clampQ speedMin speedMax v - speedMin) / speedStep) : ℤ) : ℚ)

/-- Events driving the component, each with the environment data it
needs.  `checkPerms` is the mount/`startCamera`-change effect,
`startCam` a user-initiated retry click, `toggleScroll` the scroll
button (state update plus effect re-sync), `speedInput` a change event
from the range control, `toggleRec` the record button, `dataAvail` a
recorder `ondataavailable` event, `tickOp` a firing of the scroll
interval, `flipCamera` the flip button, `setText` a textarea edit,
`unmountOp` component teardown. -/
inductive Op where
  | checkPerms (supported : Bool) (q : Option PermQ)
      (gum initRes : Except String Unit)
  | startCam (gum initRes : Except String Unit)
  | toggleScroll
  | speedInput (v : ℚ)
  | toggleRec
  | dataAvail (c : List Nat)
  | tickOp
  | flipCamera
  | setText (t : String)
  | unmountOp

def applyOp : Op → Sys → Sys
  | Op.checkPerms sup q g i, s => checkPermissions sup q g i s
  | Op.startCam g i, s => startCamera g i s
  | Op.toggleScroll, s => scrollEffectSync { s with autoScroll := !s.autoScroll }
  | Op.speedInput v, s => scrollEffectSync { s with scrollSpeed := rangeSanitize v }
  | Op.toggleRec, s => toggleRecording s
  | Op.dataAvail c, s => dataAvailable c s
  | Op.tickOp, s => tick s
  | Op.flipCamera, s => { s with facingMode := flipFacing s.facingMode }
  | Op.setText t, s => { s with text := t }
  | Op.unmountOp, s => unmount s

/-- Run a sequence of events from a state. -/
def run (ops : List Op) (s : Sys) : Sys :=
  ops.foldl (fun t op => applyOp op t) s

/-- An event is acquisition-clean when any `initializeVideoElement`
outcome it carries is a success. -/
def opInitOk : Op → Bool
  | Op.startCam _ (Except.error _) => false
  | Op.checkPerms _ _ _ (Except.error _) => false
  | _ => true

/-- The events between a record start and the matching stop. -/
def recordCycle (evs : List (List Nat)) : List Op :=
  Op.toggleRec :: (evs.map Op.dataAvail ++ [Op.toggleRec])

/-- At most one live capture handle, each live stream is the held one,
and the held stream id is older than the allocation counter. -/
def camInv (s : Sys) : Prop :=
  (∀ i ∈ s.liveStreams, s.stream = some i) ∧
  s.liveStreams.length ≤ 1 ∧
  (∀ i, s.stream = some i → i < s.nextStreamId)

/-- The stored `scrollSpeed` is in `[0.5, 5]` and an integer multiple
of `0.5`. -/
def validSpeed (v : ℚ) : Prop :=
  speedMin ≤ v ∧ v ≤ speedMax ∧ ∃ k : ℤ, v = k * speedStep

/-- State invariants that hold along every event sequence: the speed is
valid, and granted permission / an open recording / a constructed
recorder each imply a held stream. -/
def baseInv (s : Sys) : Prop :=
  validSpeed s.scrollSpeed ∧
  (s.hasPermission = some true → s.stream.isSome = true) ∧
  (s.isRecording = true → s.stream.isSome = true) ∧
  (s.mediaRecorder.isSome = true → s.stream.isSome = true)

/-- Events delivered to the `initializeVideoElement` promise: the
`onloadedmetadata` callback (with the resolution of the inner
`videoRef.current.play()` call) or the `onerror` callback. -/
inductive VideoEvent where
  | loadedMetadata (playResult : Except String Unit)
  | errorEvent

/-- Possible outcomes of awaiting `initializeVideoElement`. -/
inductive InitOutcome where
  | resolvedTrue
  | resolvedFalse
  | rejected (msg : String)
  | pending
deriving DecidableEq

/-- Embeds `initializeVideoElement` of the main revision: returns `false` when
the video element is not ready; otherwise sets `srcObject` and returns
a promise settled only by the first `onloadedmetadata` (resolving
`true` after a successful `play()`, rejecting on a play error) or
`onerror` callback.  `ev = none` means no such event is ever
delivered. -/
def initializeVideoElement (isVideoElementReady : Bool)
    (ev : Option VideoEvent) : InitOutcome :=
  if isVideoElementReady = false then InitOutcome.resolvedFalse
  else
    match ev with
    | none => InitOutcome.pending
    | some (VideoEvent.loadedMetadata (Except.ok _)) => InitOutcome.resolvedTrue
    | some (VideoEvent.loadedMetadata (Except.error msg)) => InitOutcome.rejected msg
    | some VideoEvent.errorEvent => InitOutcome.rejected "Video element error"

/-- A successful camera acquisition from the mounted initial state. -/
def grantedTrace : List Op :=
  [Op.startCam (Except.ok ()) (Except.ok ())]

def gs : Sys := run grantedTrace mountedInit

/-- Granted, then auto-scroll switched on. -/
def gsScroll : Sys := run (grantedTrace ++ [Op.toggleScroll]) mountedInit

/-- Acquisition whose video-element initialization rejects, followed by
a successful retry. -/
def leakTrace : List Op :=
  [Op.startCam (Except.ok ()) (Except.error "play interrupted"),
   Op.startCam (Except.ok ()) (Except.ok ())]

def leakState : Sys := run leakTrace mountedInit

/-- Granted with auto-scroll on, then a facing-mode re-acquisition that
fails at `getUserMedia`, leaving the component on the error/denied
screen with the interval still live. -/
def deniedScrollTrace : List Op :=
  [Op.startCam (Except.ok ()) (Except.ok ()),
   Op.toggleScroll,
   Op.startCam (Except.error "NotReadableError") (Except.ok ())]

def cDenied : Sys := run deniedScrollTrace mountedInit

/-- A full recording session over a concrete chunk sequence. -/
def recordTrace : List Op :=
  grantedTrace ++ recordCycle [[1, 2], [], [3]]

def recState : Sys := run recordTrace mountedInit

/-- Auto-scroll enabled, used to witness cancellation. -/
def csAutoOn : Sys :=
  { mountedInit with autoScroll := true, timerActive := true }

/-! Basic run and tick lemmas -/

theorem run_nil (s : Sys) : run [] s = s := rfl

theorem run_cons (op : Op) (ops : List Op) (s : Sys) :
    run (op :: ops) s = run ops (applyOp op s) := rfl

theorem run_append (l1 l2 : List Op) (s : Sys) :
    run (l1 ++ l2) s = run l2 (run l1 s) :=
  List.foldl_append _ _ _ _

theorem tick_timerActive (s : Sys) : (tick s).timerActive = s.timerActive := by
  unfold tick
  split
  · split <;> rfl
  · rfl

theorem tick_scrollSpeed (s : Sys) : (tick s).scrollSpeed = s.scrollSpeed := by
  unfold tick
  split
  · split <;> rfl
  · rfl

theorem tick_containerRendered (s : Sys) :
    containerRendered (tick s) = containerRendered s := by
  unfold tick
  split
  · split <;> rfl
  · rfl

theorem tick_of_not_active (s : Sys) (h : s.timerActive = false) : tick s = s := by
  unfold tick
  rw [h]
  simp

theorem tick_iterate_of_not_active (s : Sys) (h : s.timerActive = false) :
    ∀ n : ℕ, tick^[n] s = s
  | 0 => rfl
  | n + 1 => by
      rw [Function.iterate_succ_apply', tick_iterate_of_not_active s h n,
        tick_of_not_active s h]

theorem tick_step (s : Sys) (ht : s.timerActive = true)
    (hc : containerRendered s = true) :
    tick s = { s with scrollTop := s.scrollTop + s.scrollSpeed } := by
  unfold tick
  simp [ht, hc]

theorem tick_iter_props (s : Sys) (ht : s.timerActive = true)
    (hc : containerRendered s = true) :
    ∀ N : ℕ, (tick^[N] s).scrollTop = s.scrollTop + (N : ℚ) * s.scrollSpeed ∧
      (tick^[N] s).timerActive = true ∧
      containerRendered (tick^[N] s) = true ∧
      (tick^[N] s).scrollSpeed = s.scrollSpeed
  | 0 => ⟨by simp, ht, hc, rfl⟩
  | N + 1 => by
      obtain ⟨h1, h2, h3, h4⟩ := tick_iter_props s ht hc N
      rw [Function.iterate_succ_apply']
      refine ⟨?_, ?_, ?_, ?_⟩
      · rw [tick_step _ h2 h3, h1, h4]
        push_cast
        ring_nf
      · rw [tick_timerActive, h2]
      · rw [tick_containerRendered, h3]
      · rw [tick_scrollSpeed, h4]

/-- C2: with the interval live (auto-scroll continuously enabled) and
the scroll container rendered, N firings of the 50ms callback advance
the scroll offset by exactly N times the current scroll speed. -/
theorem autoScroll_tick_linear (s : Sys) (N : ℕ)
    (_ha : s.autoScroll = true) (ht : s.timerActive = true)
    (hc : containerRendered s = true) :
    (tick^[N] s).scrollTop = s.scrollTop + (N : ℚ) * s.scrollSpeed :=
  (tick_iter_props s ht hc N).1

/-- C2 witness: four ticks in the granted view with auto-scroll on move
the offset from 0 to 4. -/
theorem autoScroll_tick_linear_witness :
    gsScroll.autoScroll = true ∧ gsScroll.timerActive = true ∧
      containerRendered gsScroll = true ∧
      (tick^[4] gsScroll).scrollTop = gsScroll.scrollTop + (4 : ℚ) * gsScroll.scrollSpeed :=
  ⟨rfl, rfl, rfl, autoScroll_tick_linear gsScroll 4 rfl rfl rfl⟩

/-- C9: toggling auto-scroll off re-runs the effect, whose cleanup
clears the interval; afterwards no number of (now impossible) interval
firings changes anything.  Unmount likewise clears the interval via the
effect cleanup. -/
theorem scroll_timer_cancel (s : Sys) (n : ℕ) (hon : s.autoScroll = true) :
    (applyOp Op.toggleScroll s).timerActive = false ∧
      tick^[n] (applyOp Op.toggleScroll s) = applyOp Op.toggleScroll s ∧
      (unmount s).timerActive = false ∧
      tick^[n] (unmount s) = unmount s := by
  have h1 : (applyOp Op.toggleScroll s).timerActive = false := by
    simp [applyOp, scrollEffectSync, hon]
  exact ⟨h1, tick_iterate_of_not_active _ h1 n, rfl,
    tick_iterate_of_not_active _ rfl n⟩

/-- C9 witness: from a state with auto-scroll on, toggling it off kills
the timer and three further tick firings are no-ops; so is unmounting. -/
theorem scroll_timer_cancel_witness :
    csAutoOn.autoScroll = true ∧
      (applyOp Op.toggleScroll csAutoOn).timerActive = false ∧
      tick^[3] (applyOp Op.toggleScroll csAutoOn) = applyOp Op.toggleScroll csAutoOn ∧
      (unmount csAutoOn).timerActive = false :=
  ⟨rfl, (scroll_timer_cancel csAutoOn 3 rfl).1,
    (scroll_timer_cancel csAutoOn 3 rfl).2.1,
    (scroll_timer_cancel csAutoOn 3 rfl).2.2.1⟩

/-! Speed sanitisation and base state invariants -/

theorem rangeSanitize_valid (v : ℚ) : validSpeed (rangeSanitize v) := by
  unfold rangeSanitize validSpeed
  have hc1 : speedMin ≤ clampQ speedMin speedMax v := le_max_left _ _
  have hc2 : clampQ speedMin speedMax v ≤ speedMax :=
    max_le (by norm_num [speedMin, speedMax]) (min_le_left _ _)
  set c := clampQ speedMin speedMax v with hcdef
  set x : ℚ := (c - speedMin) / speedStep with hxdef
  have hx0 : 0 ≤ x := by
    rw [hxdef]
    apply div_nonneg
    · norm_num [speedMin] at hc1 ⊢
      linarith
    · norm_num [speedStep]
  have hx9 : x ≤ 9 := by
    rw [hxdef, div_le_iff₀ (by norm_num [speedStep] : (0:ℚ) < speedStep)]
    norm_num [speedMin, speedMax, speedStep] at hc1 hc2 ⊢
    linarith
  have hk0 : (0 : ℤ) ≤ round x := by
    rw [round_eq]
    exact Int.le_floor.mpr (by push_cast; linarith)
  have hk9 : round x ≤ 9 := by
    have h10 : round x < 10 := by
      rw [round_eq]
      exact Int.floor_lt.mpr (by push_cast; linarith)
    omega
  have hq0 : (0 : ℚ) ≤ ((round x : ℤ) : ℚ) := by exact_mod_cast hk0
  have hq9 : ((round x : ℤ) : ℚ) ≤ 9 := by exact_mod_cast hk9
  refine ⟨?_, ?_, ⟨round x + 1, ?_⟩⟩
  · norm_num [speedMin, speedStep]
    linarith
  · norm_num [speedMin, speedMax, speedStep]
    linarith
  · push_cast
    norm_num [speedMin, speedStep]
    ring

theorem validSpeed_one : validSpeed 1 :=
  ⟨by norm_num [speedMin], by norm_num [speedMax], ⟨2, by norm_num [speedStep]⟩⟩

theorem baseInv_mountedInit : baseInv mountedInit :=
  ⟨validSpeed_one, by decide, by decide, by decide⟩

theorem startCamera_baseInv (g i : Except String Unit) (s : Sys)
    (h : baseInv s) : baseInv (startCamera g i s) := by
  obtain ⟨h1, h2, h3, h4⟩ := h
  unfold startCamera
  split
  · exact ⟨h1, h2, h3, h4⟩
  · split
    · exact ⟨h1, fun hh => by simp at hh, h3, h4⟩
    · split
      · exact ⟨h1, fun _ => rfl, fun _ => rfl, fun _ => rfl⟩
      · exact ⟨h1, fun hh => by simp at hh, h3, h4⟩

theorem checkPermissions_baseInv (sup : Bool) (q : Option PermQ)
    (g i : Except String Unit) (s : Sys) (h : baseInv s) :
    baseInv (checkPermissions sup q g i s) := by
  obtain ⟨h1, h2, h3, h4⟩ := h
  unfold checkPermissions
  split
  · exact ⟨h1, fun hh => by simp at hh, h3, h4⟩
  · split
    · exact ⟨h1, h2, h3, h4⟩
    · split
      · exact startCamera_baseInv g i s ⟨h1, h2, h3, h4⟩
      · exact ⟨h1, fun hh => by simp at hh, h3, h4⟩
      · exact ⟨h1, fun hh => by simp at hh, h3, h4⟩
      · exact startCamera_baseInv g i s ⟨h1, h2, h3, h4⟩

theorem toggleRecording_baseInv (s : Sys) (h : baseInv s) :
    baseInv (toggleRecording s) := by
  obtain ⟨h1, h2, h3, h4⟩ := h
  unfold toggleRecording
  split
  · exact ⟨h1, h2, fun hh => by simp at hh, h4⟩
  · split
    · next hg hstream =>
        exact ⟨h1, fun _ => hstream, fun _ => hstream, fun _ => hstream⟩
    · exact ⟨h1, h2, h3, h4⟩

theorem dataAvailable_baseInv (c : List Nat) (s : Sys) (h : baseInv s) :
    baseInv (dataAvailable c s) := by
  obtain ⟨h1, h2, h3, h4⟩ := h
  unfold dataAvailable
  split
  · split
    · exact ⟨h1, h2, h3, h4⟩
    · exact ⟨h1, h2, h3, h4⟩
  · exact ⟨h1, h2, h3, h4⟩

theorem tick_baseInv (s : Sys) (h : baseInv s) : baseInv (tick s) := by
  obtain ⟨h1, h2, h3, h4⟩ := h
  unfold tick
  split
  · split
    · exact ⟨h1, h2, h3, h4⟩
    · exact ⟨h1, h2, h3, h4⟩
  · exact ⟨h1, h2, h3, h4⟩

theorem applyOp_baseInv (op : Op) (s : Sys) (h : baseInv s) :
    baseInv (applyOp op s) := by
  obtain ⟨h1, h2, h3, h4⟩ := h
  cases op with
  | checkPerms sup q g i => exact checkPermissions_baseInv sup q g i s ⟨h1, h2, h3, h4⟩
  | startCam g i => exact startCamera_baseInv g i s ⟨h1, h2, h3, h4⟩
  | toggleScroll => exact ⟨h1, h2, h3, h4⟩
  | speedInput v => exact ⟨rangeSanitize_valid v, h2, h3, h4⟩
  | toggleRec => exact toggleRecording_baseInv s ⟨h1, h2, h3, h4⟩
  | dataAvail c => exact dataAvailable_baseInv c s ⟨h1, h2, h3, h4⟩
  | tickOp => exact tick_baseInv s ⟨h1, h2, h3, h4⟩
  | flipCamera => exact ⟨h1, h2, h3, h4⟩
  | setText t => exact ⟨h1, h2, h3, h4⟩
  | unmountOp => exact ⟨h1, h2, h3, h4⟩

theorem run_baseInv (ops : List Op) (s : Sys) (h : baseInv s) :
    baseInv (run ops s) := by
  induction ops generalizing s with
  | nil => exact h
  | cons op ops ih => exact ih (applyOp op s) (applyOp_baseInv op s h)

/-- C5: every value the speed range control can deliver is stored as a
scroll speed in [0.5, 5] that is an integer multiple of 0.5, and in
every state reachable from the initial one the stored scroll speed
satisfies the same bounds. -/
theorem scrollSpeed_clamped_invariant (v : ℚ) (ops : List Op) :
    validSpeed (rangeSanitize v) ∧
      validSpeed ((run ops mountedInit).scrollSpeed) :=
  ⟨rangeSanitize_valid v, (run_baseInv ops mountedInit baseInv_mountedInit).1⟩

/-- C3: in any reachable state with no held stream, the record toggle
is a no-op: no recorder exists or is constructed, `isRecording` is and
stays false, and the whole state (chunk buffer included) is unchanged. -/
theorem toggleRecording_no_stream_rejected (ops : List Op)
    (h : (run ops mountedInit).stream = none) :
    (run ops mountedInit).isRecording = false ∧
      (run ops mountedInit).mediaRecorder = none ∧
      toggleRecording (run ops mountedInit) = run ops mountedInit := by
  obtain ⟨-, -, h3, h4⟩ := run_baseInv ops mountedInit baseInv_mountedInit
  set s := run ops mountedInit with hs
  have hrec : s.isRecording = false := by
    cases hb : s.isRecording
    · rfl
    · have hsome := h3 hb
      rw [h] at hsome
      simp at hsome
  have hmr : s.mediaRecorder = none := by
    cases hb : s.mediaRecorder with
    | none => rfl
    | some r =>
        have hsome := h4 (by rw [hb]; rfl)
        rw [h] at hsome
        simp at hsome
  refine ⟨hrec, hmr, ?_⟩
  unfold toggleRecording
  rw [hrec, hmr, h]
  simp

/-- C3 witness: in the initial state (no stream yet) the record toggle
changes nothing. -/
theorem toggleRecording_no_stream_rejected_witness :
    mountedInit.stream = none ∧ mountedInit.isRecording = false ∧
      toggleRecording mountedInit = mountedInit := by
  have h := toggleRecording_no_stream_rejected [] rfl
  exact ⟨rfl, h.1, h.2.2⟩

theorem isMainView_eq (v : View) (h : isMainView v = true) : v = View.main := by
  cases v
  · exact absurd h (by decide)
  · exact absurd h (by decide)
  · exact absurd h (by decide)
  · rfl

theorem view_main_perm (s : Sys) (h : view s = View.main) :
    s.hasPermission = some true := by
  unfold view at h
  split at h
  · exact absurd h (by decide)
  · split at h
    · exact absurd h (by decide)
    · split at h
      · exact absurd h (by decide)
      · next hne => exact not_not.mp hne

theorem containerRendered_main (s : Sys) (h : containerRendered s = true) :
    view s = View.main ∧ s.mounted = true := by
  unfold containerRendered at h
  rw [Bool.and_eq_true] at h
  exact ⟨isMainView_eq _ h.2, h.1⟩

/-- C6 (amended): a live interval tick advances the scroll offset
exactly when the scroll container is rendered; the container is
rendered only in the main (granted) view, whose permission flag in any
reachable state implies a held stream — so in the denied / prompt /
error states the offset never advances. -/
theorem autoScroll_requires_rendered_container (s : Sys) (ops : List Op)
    (ht : s.timerActive = true) :
    (tick s).scrollTop =
        (if containerRendered s = true then s.scrollTop + s.scrollSpeed
          else s.scrollTop) ∧
      (containerRendered s = true → s.hasPermission = some true) ∧
      ((run ops mountedInit).hasPermission = some true →
        (run ops mountedInit).stream.isSome = true) := by
  refine ⟨?_, ?_, fun hp => (run_baseInv ops mountedInit baseInv_mountedInit).2.1 hp⟩
  · by_cases hc : containerRendered s = true
    · rw [if_pos hc, tick_step s ht hc]
    · rw [if_neg hc]
      unfold tick
      rw [ht]
      simp [hc]
  · intro hcr
    exact view_main_perm s (containerRendered_main s hcr).1

/-- C6 witness: in the granted view with the timer live, a tick does
advance the offset, and granted permission comes with a held stream. -/
theorem autoScroll_requires_rendered_container_witness :
    gsScroll.timerActive = true ∧
      containerRendered gsScroll = true ∧
      (tick gsScroll).scrollTop = gsScroll.scrollTop + gsScroll.scrollSpeed ∧
      gsScroll.hasPermission = some true ∧
      (run grantedTrace mountedInit).stream.isSome = true := by
  have h := autoScroll_requires_rendered_container gsScroll grantedTrace rfl
  refine ⟨rfl, rfl, ?_, h.2.1 rfl, h.2.2 rfl⟩
  have h1 := h.1
  rw [if_pos (show containerRendered gsScroll = true from rfl)] at h1
  exact h1

/-- C6 counterexample: a reachable state (granted, auto-scroll enabled,
then a failed facing-mode re-acquisition) in which camera access is
denied, no live stream exists, the interval is still live — and a tick
leaves the scroll offset unchanged, because the non-granted render
branches do not mount the scroll container. -/
theorem autoScroll_denied_counterexample :
    cDenied.permissionStatus = PermStatus.denied ∧
      cDenied.hasPermission = some false ∧
      cDenied.liveStreams = [] ∧
      cDenied.autoScroll = true ∧
      cDenied.timerActive = true ∧
      ¬ cDenied.scrollSpeed = 0 ∧
      (tick cDenied).scrollTop = cDenied.scrollTop := by
  decide

/-! Capture-handle invariants (C1) -/

theorem camInv_mountedInit : camInv mountedInit := by
  refine ⟨?_, ?_, ?_⟩
  · intro i hi
    simp [mountedInit, initState] at hi
  · simp [mountedInit, initState]
  · intro i hi
    simp [mountedInit, initState] at hi

theorem stop_live_nil (s : Sys) (h1 : ∀ i ∈ s.liveStreams, s.stream = some i) :
    (stopExistingStream s).liveStreams = [] := by
  show (match s.stream with
      | some old => s.liveStreams.filter (fun j => decide (j ≠ old))
      | none => s.liveStreams) = []
  cases hs : s.stream with
  | none =>
      cases hl : s.liveStreams with
      | nil => rfl
      | cons a t =>
          have hmem := h1 a (by rw [hl]; exact List.mem_cons_self a t)
          rw [hs] at hmem
          exact absurd hmem (by simp)
  | some old =>
      rw [List.filter_eq_nil_iff]
      intro a ha
      have hmem := h1 a ha
      rw [hs] at hmem
      have haeq : old = a := by injection hmem
      simp [haeq.symm]

theorem stop_mem_sub (s : Sys) (i : Nat)
    (hi : i ∈ (stopExistingStream s).liveStreams) : i ∈ s.liveStreams := by
  have hi2 : i ∈ (match s.stream with
      | some old => s.liveStreams.filter (fun j => decide (j ≠ old))
      | none => s.liveStreams) := hi
  cases hs : s.stream with
  | none =>
      rw [hs] at hi2
      exact hi2
  | some old =>
      rw [hs] at hi2
      exact (List.mem_filter.mp hi2).1

theorem stop_length_le (s : Sys) :
    (stopExistingStream s).liveStreams.length ≤ s.liveStreams.length := by
  show (match s.stream with
      | some old => s.liveStreams.filter (fun j => decide (j ≠ old))
      | none => s.liveStreams).length ≤ s.liveStreams.length
  cases s.stream with
  | none => exact le_refl _
  | some old => exact List.length_filter_le _ _

theorem requestPhase_live_nil (s : Sys)
    (h1 : ∀ i ∈ s.liveStreams, s.stream = some i) :
    (requestPhase s).liveStreams = [] :=
  stop_live_nil { s with permissionStatus := PermStatus.requesting } h1

theorem startCamera_err_eq (msg : String) (i : Except String Unit) (s : Sys)
    (hready : s.isVideoElementReady = true) :
    startCamera (Except.error msg) i s =
      { requestPhase s with error := some msg
                          , hasPermission := some false
                          , permissionStatus := PermStatus.denied } := by
  unfold startCamera
  rw [hready]
  simp

theorem startCamera_ok_eq (s : Sys) (hready : s.isVideoElementReady = true) :
    startCamera (Except.ok ()) (Except.ok ()) s =
      { stopExistingStream
          { requestPhase s with
              liveStreams := (requestPhase s).nextStreamId :: (requestPhase s).liveStreams
            , nextStreamId := (requestPhase s).nextStreamId + 1 } with
          stream := some (requestPhase s).nextStreamId
        , hasPermission := some true
        , permissionStatus := PermStatus.granted
        , error := none } := by
  unfold startCamera
  rw [hready]
  simp

theorem startCamera_ok_live (s : Sys)
    (h1 : ∀ i ∈ s.liveStreams, s.stream = some i)
    (h3 : ∀ i, s.stream = some i → i < s.nextStreamId)
    (hready : s.isVideoElementReady = true) :
    (startCamera (Except.ok ()) (Except.ok ()) s).liveStreams = [s.nextStreamId] ∧
      (startCamera (Except.ok ()) (Except.ok ()) s).stream = some s.nextStreamId ∧
      (startCamera (Except.ok ()) (Except.ok ()) s).nextStreamId = s.nextStreamId + 1 := by
  rw [startCamera_ok_eq s hready]
  refine ⟨?_, rfl, rfl⟩
  have hnil : (requestPhase s).liveStreams = [] := requestPhase_live_nil s h1
  show (match s.stream with
      | some old =>
          (s.nextStreamId :: (requestPhase s).liveStreams).filter
            (fun j => decide (j ≠ old))
      | none => s.nextStreamId :: (requestPhase s).liveStreams) = [s.nextStreamId]
  cases hs : s.stream with
  | none => rw [hnil]
  | some old =>
      rw [hnil]
      have hne : s.nextStreamId ≠ old := by
        have := h3 old hs
        omega
      simp [List.filter_cons, hne]

theorem startCamera_err_camInv (msg : String) (i : Except String Unit) (s : Sys)
    (h : camInv s) : camInv (startCamera (Except.error msg) i s) := by
  obtain ⟨h1, h2, h3⟩ := h
  by_cases hready : s.isVideoElementReady = false
  · unfold startCamera
    rw [if_pos hready]
    exact ⟨h1, h2, h3⟩
  · have hr : s.isVideoElementReady = true := by
      revert hready
      cases s.isVideoElementReady <;> simp
    rw [startCamera_err_eq msg i s hr]
    refine ⟨?_, ?_, h3⟩
    · intro j hj
      have hj2 : j ∈ (requestPhase s).liveStreams := hj
      rw [requestPhase_live_nil s h1] at hj2
      simp at hj2
    · show (requestPhase s).liveStreams.length ≤ 1
      rw [requestPhase_live_nil s h1]
      simp

theorem startCamera_camInv (g : Except String Unit) (s : Sys) (h : camInv s) :
    camInv (startCamera g (Except.ok ()) s) := by
  cases g with
  | error msg => exact startCamera_err_camInv msg (Except.ok ()) s h
  | ok u =>
      cases u
      obtain ⟨h1, h2, h3⟩ := h
      by_cases hready : s.isVideoElementReady = false
      · unfold startCamera
        rw [if_pos hready]
        exact ⟨h1, h2, h3⟩
      · have hr : s.isVideoElementReady = true := by
          revert hready
          cases s.isVideoElementReady <;> simp
        obtain ⟨hl, hs, hn⟩ := startCamera_ok_live s h1 h3 hr
        refine ⟨?_, ?_, ?_⟩
        · intro j hj
          rw [hl] at hj
          simp at hj
          rw [hj, hs]
        · rw [hl]
          simp
        · intro j hj
          rw [hs] at hj
          have : s.nextStreamId = j := by injection hj
          rw [hn]
          omega

theorem checkPermissions_camInv (sup : Bool) (q : Option PermQ)
    (g : Except String Unit) (s : Sys) (h : camInv s) :
    camInv (checkPermissions sup q g (Except.ok ()) s) := by
  obtain ⟨h1, h2, h3⟩ := h
  unfold checkPermissions
  split
  · exact ⟨h1, h2, h3⟩
  · split
    · exact ⟨h1, h2, h3⟩
    · split
      · exact startCamera_camInv g s ⟨h1, h2, h3⟩
      · exact ⟨h1, h2, h3⟩
      · exact ⟨h1, h2, h3⟩
      · exact startCamera_camInv g s ⟨h1, h2, h3⟩

theorem toggleRecording_preserves (s : Sys) :
    (toggleRecording s).liveStreams = s.liveStreams ∧
      (toggleRecording s).stream = s.stream ∧
      (toggleRecording s).nextStreamId = s.nextStreamId := by
  unfold toggleRecording
  split
  · exact ⟨rfl, rfl, rfl⟩
  · split
    · exact ⟨rfl, rfl, rfl⟩
    · exact ⟨rfl, rfl, rfl⟩

theorem dataAvailable_preserves (c : List Nat) (s : Sys) :
    (dataAvailable c s).liveStreams = s.liveStreams ∧
      (dataAvailable c s).stream = s.stream ∧
      (dataAvailable c s).nextStreamId = s.nextStreamId := by
  unfold dataAvailable
  split
  · split
    · exact ⟨rfl, rfl, rfl⟩
    · exact ⟨rfl, rfl, rfl⟩
  · exact ⟨rfl, rfl, rfl⟩

theorem tick_preserves (s : Sys) :
    (tick s).liveStreams = s.liveStreams ∧
      (tick s).stream = s.stream ∧
      (tick s).nextStreamId = s.nextStreamId := by
  unfold tick
  split
  · split
    · exact ⟨rfl, rfl, rfl⟩
    · exact ⟨rfl, rfl, rfl⟩
  · exact ⟨rfl, rfl, rfl⟩

theorem camInv_of_preserves (s t : Sys)
    (hl : t.liveStreams = s.liveStreams) (hstream : t.stream = s.stream)
    (hn : t.nextStreamId = s.nextStreamId) (h : camInv s) : camInv t := by
  obtain ⟨h1, h2, h3⟩ := h
  refine ⟨?_, ?_, ?_⟩
  · intro i hi
    rw [hl] at hi
    rw [hstream]
    exact h1 i hi
  · rw [hl]
    exact h2
  · intro i hi
    rw [hstream] at hi
    rw [hn]
    exact h3 i hi

theorem applyOp_camInv (op : Op) (s : Sys) (hgood : opInitOk op = true)
    (h : camInv s) : camInv (applyOp op s) := by
  cases op with
  | checkPerms sup q g i =>
      cases i with
      | error m => exact absurd hgood (by simp [opInitOk])
      | ok u =>
          cases u
          exact checkPermissions_camInv sup q g s h
  | startCam g i =>
      cases i with
      | error m => exact absurd hgood (by simp [opInitOk])
      | ok u =>
          cases u
          exact startCamera_camInv g s h
  | toggleScroll => exact camInv_of_preserves s _ rfl rfl rfl h
  | speedInput v => exact camInv_of_preserves s _ rfl rfl rfl h
  | toggleRec =>
      obtain ⟨a, b, c⟩ := toggleRecording_preserves s
      exact camInv_of_preserves s _ a b c h
  | dataAvail c =>
      obtain ⟨a, b, c2⟩ := dataAvailable_preserves c s
      exact camInv_of_preserves s _ a b c2 h
  | tickOp =>
      obtain ⟨a, b, c⟩ := tick_preserves s
      exact camInv_of_preserves s _ a b c h
  | flipCamera => exact camInv_of_preserves s _ rfl rfl rfl h
  | setText t => exact camInv_of_preserves s _ rfl rfl rfl h
  | unmountOp =>
      obtain ⟨h1, h2, h3⟩ := h
      refine ⟨?_, ?_, h3⟩
      · intro i hi
        have hi2 : i ∈ (stopExistingStream s).liveStreams := hi
        exact h1 i (stop_mem_sub s i hi2)
      · show (stopExistingStream s).liveStreams.length ≤ 1
        exact le_trans (stop_length_le s) h2

theorem run_camInv (ops : List Op) (s : Sys)
    (hgood : ∀ op ∈ ops, opInitOk op = true) (h : camInv s) :
    camInv (run ops s) := by
  induction ops generalizing s with
  | nil => exact h
  | cons op ops ih =>
      exact ih (applyOp op s)
        (fun o ho => hgood o (List.mem_cons_of_mem _ ho))
        (applyOp_camInv op s (hgood op (List.mem_cons_self _ _)) h)

/-- C1 (amended): whenever a stream is held, every track of it is
stopped by the time `startCamera` issues the `getUserMedia` request
(the `requestPhase` state); and along every event sequence in which
video-element initialization never fails, at most one live capture
handle exists.  (The unconditional claim is refuted by
`startCamera_leak_counterexample`.) -/
theorem startCamera_release_before_acquire (s : Sys) (old : Nat)
    (ops : List Op) (hheld : s.stream = some old)
    (hgood : ∀ op ∈ ops, opInitOk op = true) :
    old ∉ (requestPhase s).liveStreams ∧
      (run ops mountedInit).liveStreams.length ≤ 1 := by
  constructor
  · intro hmem
    have hmem2 : old ∈ (match s.stream with
        | some o => s.liveStreams.filter (fun j => decide (j ≠ o))
        | none => s.liveStreams) := hmem
    rw [hheld] at hmem2
    have := (List.mem_filter.mp hmem2).2
    simp at this
  · exact (run_camInv ops mountedInit hgood camInv_mountedInit).2.1

/-- C1 counterexample: acquire with a failing video-element
initialization (the new stream is neither stored nor stopped), then
acquire again successfully — two streams are now live, refuting the
at-most-one-live-handle claim for the code as written. -/
theorem startCamera_leak_counterexample :
    leakState.liveStreams = [1, 0] ∧ ¬ leakState.liveStreams.length ≤ 1 := by
  decide

/-- C1 witness: in the granted state stream 0 is held, its tracks are
stopped before a re-acquisition request, and a toggle-then-reacquire
trace with successful initializations keeps at most one live handle. -/
theorem startCamera_release_before_acquire_witness :
    gs.stream = some 0 ∧
      0 ∉ (requestPhase gs).liveStreams ∧
      (run [Op.startCam (Except.ok ()) (Except.ok ()), Op.flipCamera,
        Op.startCam (Except.ok ()) (Except.ok ())] mountedInit).liveStreams.length ≤ 1 := by
  have h := startCamera_release_before_acquire gs 0
    [Op.startCam (Except.ok ()) (Except.ok ()), Op.flipCamera,
      Op.startCam (Except.ok ()) (Except.ok ())] rfl (by decide)
  exact ⟨rfl, h.1, h.2⟩

/-! Recording sessions (C4, C7) -/

theorem flatten_filter_pos (l : List (List Nat)) :
    (l.filter (fun c => decide (0 < c.length))).flatten = l.flatten := by
  induction l with
  | nil => rfl
  | cons c t ih =>
      by_cases hc : 0 < c.length
      · simp [List.filter_cons, hc, ih]
      · have hcnil : c = [] := by
          cases c
          · rfl
          · simp at hc
        subst hcnil
        simp [List.filter_cons, ih]

theorem dataAvailable_rec (c : List Nat) (s : Sys) (hr : s.isRecording = true)
    (hm : s.mediaRecorder.isSome = true) :
    dataAvailable c s =
      (if 0 < c.length then { s with chunks := s.chunks ++ [c] } else s) := by
  unfold dataAvailable
  rw [hr, hm]
  simp

theorem run_dataAvail (evs : List (List Nat)) : ∀ s : Sys,
    s.isRecording = true → s.mediaRecorder.isSome = true →
    (run (evs.map Op.dataAvail) s).chunks =
        s.chunks ++ evs.filter (fun c => decide (0 < c.length)) ∧
      (run (evs.map Op.dataAvail) s).artifacts = s.artifacts ∧
      (run (evs.map Op.dataAvail) s).isRecording = true ∧
      (run (evs.map Op.dataAvail) s).mediaRecorder.isSome = true := by
  induction evs with
  | nil =>
      intro s hr hm
      exact ⟨by simp [run], rfl, hr, hm⟩
  | cons e t ih =>
      intro s hr hm
      rw [List.map_cons, run_cons]
      by_cases he : 0 < e.length
      · have happ : applyOp (Op.dataAvail e) s = { s with chunks := s.chunks ++ [e] } := by
          show dataAvailable e s = _
          rw [dataAvailable_rec e s hr hm, if_pos he]
        rw [happ]
        obtain ⟨k1, k2, k3, k4⟩ := ih { s with chunks := s.chunks ++ [e] } hr hm
        refine ⟨?_, k2, k3, k4⟩
        rw [k1]
        simp [List.filter_cons, he]
      · have happ : applyOp (Op.dataAvail e) s = s := by
          show dataAvailable e s = _
          rw [dataAvailable_rec e s hr hm, if_neg he]
        rw [happ]
        obtain ⟨k1, k2, k3, k4⟩ := ih s hr hm
        refine ⟨?_, k2, k3, k4⟩
        rw [k1]
        simp [List.filter_cons, he]

theorem recordCycle_artifacts (s : Sys) (evs : List (List Nat))
    (hs : s.stream.isSome = true) (hr : s.isRecording = false) :
    (run (recordCycle evs) s).artifacts =
        s.artifacts ++ [⟨recordingFilename, evs.flatten⟩] ∧
      (run (recordCycle evs) s).isRecording = false := by
  have hstart : applyOp Op.toggleRec s =
      { s with chunks := []
             , mediaRecorder := some s.nextRecId
             , nextRecId := s.nextRecId + 1
             , isRecording := true } := by
    show toggleRecording s = _
    unfold toggleRecording
    rw [hr, hs]
    simp
  unfold recordCycle
  rw [run_cons, hstart]
  rw [run_append]
  obtain ⟨k1, k2, k3, k4⟩ := run_dataAvail evs
    { s with chunks := []
           , mediaRecorder := some s.nextRecId
           , nextRecId := s.nextRecId + 1
           , isRecording := true } rfl rfl
  set t2 := run (evs.map Op.dataAvail)
    { s with chunks := []
           , mediaRecorder := some s.nextRecId
           , nextRecId := s.nextRecId + 1
           , isRecording := true } with ht2
  show (toggleRecording t2).artifacts = _ ∧ (toggleRecording t2).isRecording = false
  have hguard : (t2.isRecording && t2.mediaRecorder.isSome) = true := by
    rw [k3, Bool.true_and]
    exact k4
  unfold toggleRecording
  rw [if_pos hguard]
  constructor
  · show t2.artifacts ++ [⟨recordingFilename, t2.chunks.flatten⟩] =
      s.artifacts ++ [⟨recordingFilename, evs.flatten⟩]
    rw [k2, k1]
    simp [flatten_filter_pos]
  · rfl

/-- C4: starting a recording with a held stream, delivering any
sequence of `ondataavailable` events, and stopping produces exactly one
new downloadable artifact, whose content is the concatenation, in
arrival order, of the data of all delivered events (size-zero events
contribute nothing and are the only ones not buffered), independent of
any chunks left over from prior sessions. -/
theorem recording_artifact_concat (s : Sys) (evs : List (List Nat))
    (hs : s.stream.isSome = true) (hr : s.isRecording = false) :
    (run (recordCycle evs) s).artifacts =
        s.artifacts ++ [⟨recordingFilename, evs.flatten⟩] ∧
      (run (recordCycle evs) s).artifacts.length = s.artifacts.length + 1 := by
  obtain ⟨h1, -⟩ := recordCycle_artifacts s evs hs hr
  refine ⟨h1, ?_⟩
  rw [h1]
  simp

/-- C4 witness: a session over chunks [1,2], [] (size zero), [3] yields
the single artifact with content [1,2,3]. -/
theorem recording_artifact_concat_witness :
    gs.stream.isSome = true ∧ gs.isRecording = false ∧
      (run (recordCycle [[1, 2], [], [3]]) gs).artifacts =
        [Artifact.mk recordingFilename [1, 2, 3]] := by
  have h := (recording_artifact_concat gs [[1, 2], [], [3]] rfl rfl).1
  exact ⟨rfl, rfl, h.trans (by decide)⟩

/-- C7 (amended): in the main revision the artifact produced by
stopping a recording is always named by the constant
`teleprompter-recording.webm`, which contains no digit and hence no
timestamp; only the `unnamed/part_003` revision interpolates
`new Date().toISOString()` into the name, so there the timestamp occurs
in the filename. -/
theorem recording_filename_timestamp_amended (ts : String) (s : Sys)
    (evs : List (List Nat)) (hs : s.stream.isSome = true)
    (hr : s.isRecording = false) :
    (run (recordCycle evs) s).artifacts.map Artifact.filename =
        s.artifacts.map Artifact.filename ++ [recordingFilename] ∧
      recordingFilename.data.any Char.isDigit = false ∧
      (∃ pre post : List Char,
        (part003RecordingFilename ts).data = pre ++ ts.data ++ post) := by
  refine ⟨?_, by decide, ⟨"teleprompter-recording-".data, ".webm".data, ?_⟩⟩
  · rw [(recordCycle_artifacts s evs hs hr).1]
    simp
  · show ("teleprompter-recording-" ++ ts ++ ".webm").data = _
    rw [String.data_append, String.data_append, List.append_assoc]

/-- C7 counterexample: running a full recording session produces an
artifact whose name is exactly `teleprompter-recording.webm`; the name
contains no digit, so it cannot contain any rendering of a recording
timestamp, refuting the claim for the main revision. -/
theorem recording_filename_no_timestamp :
    recState.artifacts.map Artifact.filename = [recordingFilename] ∧
      recordingFilename.data.any Char.isDigit = false := by
  decide

/-- C7 witness: the amended statement at a concrete session. -/
theorem recording_filename_timestamp_amended_witness :
    gs.stream.isSome = true ∧ gs.isRecording = false ∧
      (run (recordCycle [[5]]) gs).artifacts.map Artifact.filename =
        [recordingFilename] := by
  have h := recording_filename_timestamp_amended "2026-10-12T00:00:00Z" gs [[5]] rfl rfl
  exact ⟨rfl, rfl, h.1.trans (by decide)⟩

/-! The video-element readiness wait (C8) -/

/-- C8 (amended): with the video element ready, the
`initializeVideoElement` promise is still pending exactly when no
`onloadedmetadata` or `onerror` event has been delivered: the code
installs no timeout, so absent those events the wait never settles. -/
theorem initializeVideoElement_pending_iff_no_event (ev : Option VideoEvent) :
    initializeVideoElement true ev = InitOutcome.pending ↔ ev = none := by
  cases ev with
  | none => simp [initializeVideoElement]
  | some e =>
      cases e with
      | loadedMetadata p =>
          cases p with
          | ok u => simp [initializeVideoElement]
          | error m => simp [initializeVideoElement]
      | errorEvent => simp [initializeVideoElement]

/-- C8 witness: the amended statement instantiated at the empty event
history. -/
theorem initializeVideoElement_pending_iff_no_event_witness :
    initializeVideoElement true none = InitOutcome.pending ↔
      (none : Option VideoEvent) = none :=
  initializeVideoElement_pending_iff_no_event none

/-- C8 counterexample: when neither readiness nor error event ever
arrives, the wait is still pending — it neither succeeded nor produced
an error within any bound, refuting the bounded-timeout claim. -/
theorem initializeVideoElement_no_timeout_counterexample :
    initializeVideoElement true none = InitOutcome.pending := rfl

/-! Failure collapsing (C10) -/

theorem startCamera_status_cases (g i : Except String Unit) (s : Sys) :
    (startCamera g i s).permissionStatus = s.permissionStatus ∨
      (startCamera g i s).permissionStatus = PermStatus.denied ∨
      (startCamera g i s).permissionStatus = PermStatus.granted := by
  unfold startCamera
  split
  · left
    rfl
  · split
    · right
      left
      rfl
    · split
      · right
        right
        rfl
      · right
        left
        rfl

theorem toggleRecording_permissionStatus (s : Sys) :
    (toggleRecording s).permissionStatus = s.permissionStatus := by
  unfold toggleRecording
  split
  · rfl
  · split
    · rfl
    · rfl

theorem dataAvailable_permissionStatus (c : List Nat) (s : Sys) :
    (dataAvailable c s).permissionStatus = s.permissionStatus := by
  unfold dataAvailable
  split
  · split
    · rfl
    · rfl
  · rfl

theorem tick_permissionStatus (s : Sys) :
    (tick s).permissionStatus = s.permissionStatus := by
  unfold tick
  split
  · split
    · rfl
    · rfl
  · rfl

theorem checkPermissions_error_status (sup : Bool) (q : Option PermQ)
    (g i : Except String Unit) (s : Sys)
    (h : (checkPermissions sup q g i s).permissionStatus = PermStatus.error) :
    sup = false ∨ s.permissionStatus = PermStatus.error := by
  by_cases hsup : sup = false
  · left
    exact hsup
  · right
    unfold checkPermissions at h
    rw [if_neg hsup] at h
    split at h
    · exact h
    · split at h
      · rcases startCamera_status_cases g i s with hc | hc | hc
        · rw [hc] at h
          exact h
        · rw [hc] at h
          exact absurd h (by decide)
        · rw [hc] at h
          exact absurd h (by decide)
      · simp at h
      · simp at h
      · rcases startCamera_status_cases g i s with hc | hc | hc
        · rw [hc] at h
          exact h
        · rw [hc] at h
          exact absurd h (by decide)
        · rw [hc] at h
          exact absurd h (by decide)

theorem applyOp_error_provenance (op : Op) (s : Sys)
    (h : (applyOp op s).permissionStatus = PermStatus.error)
    (hop : ∀ q g i, op ≠ Op.checkPerms false q g i) :
    s.permissionStatus = PermStatus.error := by
  cases op with
  | checkPerms sup q g i =>
      rcases checkPermissions_error_status sup q g i s h with hsup | hs
      · subst hsup
        exact absurd rfl (hop q g i)
      · exact hs
  | startCam g i =>
      change (startCamera g i s).permissionStatus = PermStatus.error at h
      rcases startCamera_status_cases g i s with hc | hc | hc
      · rw [hc] at h
        exact h
      · rw [hc] at h
        exact absurd h (by decide)
      · rw [hc] at h
        exact absurd h (by decide)
  | toggleScroll => exact h
  | speedInput v => exact h
  | toggleRec =>
      rw [show applyOp Op.toggleRec s = toggleRecording s from rfl,
        toggleRecording_permissionStatus] at h
      exact h
  | dataAvail c =>
      rw [show applyOp (Op.dataAvail c) s = dataAvailable c s from rfl,
        dataAvailable_permissionStatus] at h
      exact h
  | tickOp =>
      rw [show applyOp Op.tickOp s = tick s from rfl,
        tick_permissionStatus] at h
      exact h
  | flipCamera => exact h
  | setText t => exact h
  | unmountOp => exact h

/-- C10: every enumerated failure inside a ready `startCamera` — a
`getUserMedia` rejection of any kind, or a video-element initialization
failure — ends with `permissionStatus = denied` and
`hasPermission = false`; and no event other than the unsupported-browser
branch of `checkPermissions` can introduce the distinct `error`
status. -/
theorem startCamera_failures_denied (s : Sys) (gum initRes : Except String Unit)
    (op : Op) (hready : s.isVideoElementReady = true)
    (hfail : (∃ m, gum = Except.error m) ∨ (∃ m, initRes = Except.error m))
    (hs : s.permissionStatus ≠ PermStatus.error)
    (hop : ∀ q g i, op ≠ Op.checkPerms false q g i) :
    (startCamera gum initRes s).permissionStatus = PermStatus.denied ∧
      (startCamera gum initRes s).hasPermission = some false ∧
      (applyOp op s).permissionStatus ≠ PermStatus.error := by
  have hmain : (startCamera gum initRes s).permissionStatus = PermStatus.denied ∧
      (startCamera gum initRes s).hasPermission = some false := by
    cases gum with
    | error m =>
        rw [startCamera_err_eq m initRes s hready]
        exact ⟨rfl, rfl⟩
    | ok u =>
        cases u
        rcases hfail with ⟨m, hm⟩ | ⟨m, hm⟩
        · exact absurd hm (by simp)
        · subst hm
          unfold startCamera
          rw [hready]
          simp
  exact ⟨hmain.1, hmain.2, fun he => hs (applyOp_error_provenance op s he hop)⟩

/-- C10 witness: a permission rejection in the initial state yields the
denied status with `hasPermission = false`, and a tick cannot introduce
the `error` status. -/
theorem startCamera_failures_denied_witness :
    mountedInit.isVideoElementReady = true ∧
      (startCamera (Except.error "NotAllowedError") (Except.ok ())
        mountedInit).permissionStatus = PermStatus.denied ∧
      (startCamera (Except.error "NotAllowedError") (Except.ok ())
        mountedInit).hasPermission = some false ∧
      (applyOp Op.tickOp mountedInit).permissionStatus ≠ PermStatus.error := by
  have h := startCamera_failures_denied mountedInit
    (Except.error "NotAllowedError") (Except.ok ()) Op.tickOp rfl
    (Or.inl ⟨"NotAllowedError", rfl⟩) (by decide)
    (fun q g i hq => Op.noConfusion hq)
  exact ⟨rfl, h.1, h.2.1, h.2.2⟩
